import Mathlib

/-!
# DemoCheck: the listing intake API

A shallow embedding of `src/server.js` (the Express handlers and the SQL statements they
issue) and of `makeListingId` from `src/helpers.js`.

* The five tables are lists of typed rows; a handler is a function from the state of the
  database (and of the blob store) to a response and a new state.
* The outcome of every `db.query` call that the caller observes is an argument of the
  handler: `none` when the statement ran, `some e` when the driver reported the error `e`
  (a failed statement changes nothing).
* The clock, the random source, `path.extname` and the blob store are arguments too.
* JavaScript numbers are integers here. `Math.random()` is the double `k / 2 ^ 53`, and its
  product with 10000 is the double nearest to the exact product, as the code computes it.
* Parsing of the request (JSON, multipart) happens before a handler runs and is not part
  of the model: a request that the parser refuses never reaches the handler.
* The migration files are not part of the sources. Columns are typed as the statements use
  them (a flag is compared with the integer 1, `price` is cast to text), every column but
  `listing_id` is nullable, and what else the schema declares is stated where it is used.
-/

namespace DemoCheck

/-! ## Request values -/

/-- A scalar value of a parsed request body; `undefined` is a key that is absent. A number
is an integer of magnitude below 10 ^ 21, the range in which `Number.prototype.toString`
prints every digit. -/
inductive JsVal where
  | undefined
  | null
  | bool (b : Bool)
  | num (n : Int) (small : n.natAbs < 10 ^ 21)
  | str (s : String)
  deriving DecidableEq, Repr

/-- JavaScript truthiness, the negation of what `!listing_id` tests. -/
def JsVal.truthy : JsVal → Bool
  | .undefined => false
  | .null => false
  | .bool b => b
  | .num n _ => n != 0
  | .str s => s != ""

/-- The string form of a value: what a template literal interpolates and, for a value that
is neither `null` nor `undefined`, the text the `pg` driver binds (`val.toString()`). -/
def JsVal.toText : JsVal → String
  | .undefined => "undefined"
  | .null => "null"
  | .bool b => if b then "true" else "false"
  | .num n _ => toString n
  | .str s => s

/-- A typed field of a request body: absent (`undefined`), `null`, or a value. -/
inductive Field (α : Type) where
  | absent
  | null
  | val (a : α)
  deriving DecidableEq, Repr

/-- Binding of a query parameter: the driver sends SQL NULL for `undefined` and `null`. -/
def Field.bind {α : Type} : Field α → Option α
  | .absent => none
  | .null => none
  | .val a => some a

/-- Destructuring with a default, `const { x = d } = req.body`, followed by the binding:
the default replaces `undefined` only, a `null` stays `null`. -/
def Field.orDefault {α : Type} (d : α) : Field α → Option α
  | .absent => some d
  | .null => none
  | .val a => some a

/-! ## Tables -/

/-- A row of `step1`. -/
structure Step1Row where
  listing_id : String
  property_title : Option String
  description : Option String
  property_type : Option String
  bedrooms : Option Int
  bathrooms : Option Int
  total_area : Option Int
  deriving DecidableEq, Repr

/-- A row of `step2`: the 15 amenity flags and two texts. -/
structure Step2Row where
  listing_id : String
  wifi : Option Int
  tv : Option Int
  ac : Option Int
  heating : Option Int
  washer : Option Int
  dryer : Option Int
  refrigerator : Option Int
  stove : Option Int
  microwave : Option Int
  coffee_maker : Option Int
  dishwasher : Option Int
  smoke_alarm : Option Int
  co_alarm : Option Int
  first_aid : Option Int
  fire_extinguisher : Option Int
  unique_features : Option String
  special_notes : Option String
  deriving DecidableEq, Repr

/-- A row of `step3`. -/
structure Step3Row where
  listing_id : String
  price : Option Int
  city : Option String
  area : Option String
  deriving DecidableEq, Repr

/-- A row of `upload`. -/
structure UploadRow where
  listing_id : String
  image1 : Option String
  image2 : Option String
  image3 : Option String
  image4 : Option String
  video : Option String
  deriving DecidableEq, Repr

/-- The 17 columns that the `INSERT INTO step4 ... SELECT` of publish-final produces. -/
structure Snapshot where
  listing_id : String
  property_title : Option String
  description : Option String
  property_type : Option String
  bedrooms : Option Int
  bathrooms : Option Int
  total_area : Option Int
  amenities : Option String
  special_notes : Option String
  price : Option Int
  city : Option String
  area : Option String
  image1 : Option String
  image2 : Option String
  image3 : Option String
  image4 : Option String
  video : Option String
  deriving DecidableEq, Repr

/-- A row of `step4`: the snapshot plus the two columns the statements never assign, `id`
(`ORDER BY id DESC`) and `created_at` (`ORDER BY created_at DESC`). -/
structure Step4Row extends Snapshot where
  id : Nat
  created_at : Nat
  deriving DecidableEq, Repr

/-- Modelled from the spec: the column defaults of the four draft tables, declared by the
migration files, which are absent. A row inserted with only `listing_id` takes its other
columns from here (the `listing_id` of these rows is not used). -/
structure ColumnDefaults where
  step1 : Step1Row
  step2 : Step2Row
  step3 : Step3Row
  upload : UploadRow

/-- The state: the five tables, the next value of the `step4.id` sequence, the number of
`db.query` calls issued so far and the object names stored in the blob store. -/
structure World where
  step1 : List Step1Row
  step2 : List Step2Row
  step3 : List Step3Row
  upload : List UploadRow
  step4 : List Step4Row
  step4_seq : Nat
  queries : Nat
  blobs : List String
  deriving DecidableEq, Repr

/-- The empty database. -/
def World.empty : World :=
  { step1 := [], step2 := [], step3 := [], upload := [], step4 := [],
    step4_seq := 1, queries := 0, blobs := [] }

/-- The unique index on `listing_id` that `ON CONFLICT (listing_id)` relies on, for the
four draft tables. -/
def World.UniqueKeys (w : World) : Prop :=
  (w.step1.map (·.listing_id)).Nodup ∧ (w.step2.map (·.listing_id)).Nodup ∧
  (w.step3.map (·.listing_id)).Nodup ∧ (w.upload.map (·.listing_id)).Nodup

/-- `INSERT ... ON CONFLICT (listing_id) DO UPDATE SET c = EXCLUDED.c` for every column `c`
other than the key: a row with the key is replaced, else the new row is added. -/
def upsertRow {ρ : Type} (key : ρ → String) (new : ρ) (t : List ρ) : List ρ :=
  if t.any (fun r => key r == key new) then
    t.map (fun r => if key r = key new then new else r)
  else t ++ [new]

/-- `INSERT ... ON CONFLICT DO NOTHING`. -/
def insertIgnore {ρ : Type} (key : ρ → String) (new : ρ) (t : List ρ) : List ρ :=
  if t.any (fun r => key r == key new) then t else t ++ [new]

/-! ## Responses -/

/-- The draft that get-listing and get-latest-listing return; `none` is the object with no
keys that a step without a row keeps. -/
structure Draft where
  step1 : Option Step1Row
  step2 : Option Step2Row
  step3 : Option Step3Row
  media : Option UploadRow
  deriving DecidableEq, Repr

/-- What a response body holds besides `status`. -/
inductive Detail where
  | none
  | message (m : String)
  | error (e : String)
  | created (listing_id : String)
  | rows (data : List Step4Row)
  | row (data : Step4Row)
  | draft (data : Draft)
  | latest (listing_id : String) (data : Draft)
  | text (body : String)
  deriving DecidableEq, Repr

/-- An HTTP response: status code, the `status` field of the body, the rest of the body. -/
structure Response where
  code : Nat
  status : String
  detail : Detail
  deriving DecidableEq, Repr

/-- The reply `res.status(400).json(...)` of a request without `listing_id`. -/
def missingId : Response :=
  { code := 400, status := "error", detail := .message "listing_id missing" }

/-- The helper `sendError`. -/
def sendError (err : String) : Response :=
  { code := 500, status := "error", detail := .error err }

/-- The reply `res.json(...)` with status success. -/
def success (d : Detail) : Response :=
  { code := 200, status := "success", detail := d }

/-! ## Step saves -/

/-- The body of save-step1. -/
structure Step1Body where
  listing_id : JsVal
  property_title : Field String
  description : Field String
  property_type : Field String
  bedrooms : Field Int
  bathrooms : Field Int
  total_area : Field Int

/-- The body of add-step2. -/
structure Step2Body where
  listing_id : JsVal
  wifi : Field Int
  tv : Field Int
  ac : Field Int
  heating : Field Int
  washer : Field Int
  dryer : Field Int
  refrigerator : Field Int
  stove : Field Int
  microwave : Field Int
  coffee_maker : Field Int
  dishwasher : Field Int
  smoke_alarm : Field Int
  co_alarm : Field Int
  first_aid : Field Int
  fire_extinguisher : Field Int
  unique_features : Field String
  special_notes : Field String

/-- The body of add-step3. -/
structure Step3Body where
  listing_id : JsVal
  price : Field Int
  city : Field String
  area : Field String

/-- The body of publish-final. -/
structure PublishBody where
  listing_id : JsVal

/-- Handler of `POST /save-step1`. -/
def saveStep1 (err : Option String) (body : Step1Body) (w : World) : Response × World :=
  if !body.listing_id.truthy then (missingId, w)
  else
    match err with
    | some e => (sendError e, { w with queries := w.queries + 1 })
    | none =>
      (success .none,
        { w with
          queries := w.queries + 1
          step1 := upsertRow (·.listing_id)
            { listing_id := body.listing_id.toText
              property_title := body.property_title.bind
              description := body.description.bind
              property_type := body.property_type.bind
              bedrooms := body.bedrooms.bind
              bathrooms := body.bathrooms.bind
              total_area := body.total_area.bind } w.step1 })

/-- Handler of `POST /add-step2`. -/
def addStep2 (err : Option String) (body : Step2Body) (w : World) : Response × World :=
  if !body.listing_id.truthy then (missingId, w)
  else
    match err with
    | some e => (sendError e, { w with queries := w.queries + 1 })
    | none =>
      (success .none,
        { w with
          queries := w.queries + 1
          step2 := upsertRow (·.listing_id)
            { listing_id := body.listing_id.toText
              wifi := body.wifi.orDefault 0
              tv := body.tv.orDefault 0
              ac := body.ac.orDefault 0
              heating := body.heating.orDefault 0
              washer := body.washer.orDefault 0
              dryer := body.dryer.orDefault 0
              refrigerator := body.refrigerator.orDefault 0
              stove := body.stove.orDefault 0
              microwave := body.microwave.orDefault 0
              coffee_maker := body.coffee_maker.orDefault 0
              dishwasher := body.dishwasher.orDefault 0
              smoke_alarm := body.smoke_alarm.orDefault 0
              co_alarm := body.co_alarm.orDefault 0
              first_aid := body.first_aid.orDefault 0
              fire_extinguisher := body.fire_extinguisher.orDefault 0
              unique_features := body.unique_features.orDefault ""
              special_notes := body.special_notes.orDefault "" } w.step2 })

/-- Handler of `POST /add-step3`. -/
def addStep3 (err : Option String) (body : Step3Body) (w : World) : Response × World :=
  if !body.listing_id.truthy then (missingId, w)
  else
    match err with
    | some e => (sendError e, { w with queries := w.queries + 1 })
    | none =>
      (success .none,
        { w with
          queries := w.queries + 1
          step3 := upsertRow (·.listing_id)
            { listing_id := body.listing_id.toText
              price := body.price.bind
              city := body.city.bind
              area := body.area.bind } w.step3 })

/-! ## Media upload -/

/-- An uploaded file as the handler uses it: only `originalname` enters the object name;
the buffer and the content type go to the blob store unread. -/
structure MediaFile where
  originalname : String
  deriving DecidableEq, Repr

/-- A multipart upload-media request: `listing_id` and the first file of each image field
(`none` when the field has no file). A file in the `video` field is accepted and ignored. -/
structure MediaReq where
  listing_id : JsVal
  image1 : Option MediaFile
  image2 : Option MediaFile
  image3 : Option MediaFile
  image4 : Option MediaFile

/-- The collaborators of upload-media: `Date.now()` read while slot `i` is processed,
`path.extname`, the blob store, which answers an upload of an object name with an error
message or with the stored path (`data.path`), and the order in which the uploads settle,
as slot numbers 1 to 4. -/
structure MediaEnv where
  clock : Nat → Nat
  extname : String → String
  put : String → Except String String
  settles : List Nat

/-- The object name of slot `i`, the template literal of the handler. -/
def objectName (env : MediaEnv) (listing_id : JsVal) (i : Nat) (f : MediaFile) : String :=
  listing_id.toText ++ "/" ++ ("image" ++ toString i) ++ "-" ++ toString (env.clock i)
    ++ env.extname f.originalname

/-- The upload promise of slot `i`: none when the slot has no file, else the answer of the
blob store. -/
def uploadSlot (env : MediaEnv) (listing_id : JsVal) (i : Nat) :
    Option MediaFile → Option (Except String String)
  | none => none
  | some f => some (env.put (objectName env listing_id i f))

/-- The four upload promises of a request, slot 1 first. -/
def uploadAll (env : MediaEnv) (req : MediaReq) : List (Option (Except String String)) :=
  [uploadSlot env req.listing_id 1 req.image1, uploadSlot env req.listing_id 2 req.image2,
   uploadSlot env req.listing_id 3 req.image3, uploadSlot env req.listing_id 4 req.image4]

/-- The promises in the order in which they settle: the slots that `env.settles` names
come first, in its order; a slot that it leaves out settles after them, in slot order. -/
def settleOrder (env : MediaEnv) (rs : List (Option (Except String String))) :
    List (Option (Except String String)) :=
  (env.settles.filterMap fun i => if i = 0 then none else rs[i - 1]?) ++ rs

/-- The rejection of `Promise.all` over promises listed in the order in which they settle:
the error thrown for the first failed upload, none when every promise resolved. -/
def firstRejection : List (Option (Except String String)) → Option String
  | [] => none
  | some (.error e) :: _ => some ("Supabase Storage Error: " ++ e)
  | _ :: rest => firstRejection rest

/-- The value of `db_data[fileKey]` once the promise settled: the stored path of a
successful upload, else the initial `null`. -/
def storedPath : Option (Except String String) → Option String
  | some (.ok p) => some p
  | _ => none

/-- Handler of `POST /upload-media`. -/
def uploadMedia (env : MediaEnv) (err : Option String) (req : MediaReq) (w : World) :
    Response × World :=
  if !req.listing_id.truthy then (missingId, w)
  else
    let rs := uploadAll env req
    let w1 := { w with blobs := w.blobs ++ rs.filterMap storedPath }
    match firstRejection (settleOrder env rs) with
    | some e => (sendError e, w1)
    | none =>
      match err with
      | some e => (sendError e, { w1 with queries := w1.queries + 1 })
      | none =>
        (success (.message "Media saved successfully!"),
          { w1 with
            queries := w1.queries + 1
            upload := upsertRow (·.listing_id)
              { listing_id := req.listing_id.toText
                image1 := storedPath (uploadSlot env req.listing_id 1 req.image1)
                image2 := storedPath (uploadSlot env req.listing_id 2 req.image2)
                image3 := storedPath (uploadSlot env req.listing_id 3 req.image3)
                image4 := storedPath (uploadSlot env req.listing_id 4 req.image4)
                video := none } w1.upload })

/-! ## Listing identifiers -/

/-- The denominator of the random source: `Math.random()` is `k / 2 ^ 53` with
`k < 2 ^ 53`. -/
def RANDOM_DENOM : Nat := 2 ^ 53

/-- The number of bits by which `n` exceeds 53 bits: how often `n` is halved until it is
below `2 ^ 53`. The first argument bounds the number of halvings; `n` itself is enough. -/
def excessBits : Nat → Nat → Nat
  | 0, _ => 0
  | fuel + 1, n => if n < 2 ^ 53 then 0 else excessBits fuel (n / 2) + 1

/-- The double nearest to `n / 2 ^ 53`, as its numerator over `2 ^ 53`: IEEE 754 rounding of
a product to 53 significant bits, to nearest, a tie to the even significand. -/
def nearestDouble (n : Nat) : Nat :=
  let s := excessBits n n
  let q := n / 2 ^ s
  let r := n % 2 ^ s
  if 2 ^ s < 2 * r ∨ (2 * r = 2 ^ s ∧ q % 2 = 1) then (q + 1) * 2 ^ s else q * 2 ^ s

/-- The value of `Math.round(Math.random() * m)` for the random value `k / 2 ^ 53` and an
integer `m` below `2 ^ 53`: the product is rounded to a double, then to the nearest integer,
a half rounded up. -/
def roundRandom (k m : Nat) : Nat :=
  (2 * nearestDouble (k * m) + RANDOM_DENOM) / (2 * RANDOM_DENOM)

/-- The value of `Math.floor(Math.random() * m)` for the random value `k / 2 ^ 53` and an
integer `m` below `2 ^ 53`: the product is rounded to a double, then down. -/
def floorRandom (k m : Nat) : Nat := nearestDouble (k * m) / RANDOM_DENOM

/-- The identifier that create-listing mints at time `now` with the random value
`k / 2 ^ 53`. -/
def createListingId (now k : Nat) : String :=
  toString now ++ "_" ++ toString (roundRandom k 10000)

/-- The function `makeListingId` of helpers.js. -/
def makeListingId (now k : Nat) : String :=
  toString now ++ "_" ++ toString (floorRandom k 10000)

/-- Handler of `GET /create-listing`: the four inserts run one after the other and the
first error ends the chain. -/
def createListing (dflt : ColumnDefaults) (now k : Nat) (e1 e2 e3 e4 : Option String)
    (w : World) : Response × World :=
  let listing_id := createListingId now k
  match e1 with
  | some e => (sendError e, { w with queries := w.queries + 1 })
  | none =>
    let w1 := { w with
      queries := w.queries + 1
      step1 := insertIgnore (·.listing_id) { dflt.step1 with listing_id := listing_id } w.step1 }
    match e2 with
    | some e => (sendError e, { w1 with queries := w1.queries + 1 })
    | none =>
      let w2 := { w1 with
        queries := w1.queries + 1
        step2 := insertIgnore (·.listing_id) { dflt.step2 with listing_id := listing_id }
          w1.step2 }
      match e3 with
      | some e => (sendError e, { w2 with queries := w2.queries + 1 })
      | none =>
        let w3 := { w2 with
          queries := w2.queries + 1
          step3 := insertIgnore (·.listing_id) { dflt.step3 with listing_id := listing_id }
            w2.step3 }
        match e4 with
        | some e => (sendError e, { w3 with queries := w3.queries + 1 })
        | none =>
          (success (.created listing_id),
            { w3 with
              queries := w3.queries + 1
              upload := insertIgnore (·.listing_id)
                { dflt.upload with listing_id := listing_id } w3.upload })

/-! ## Publish -/

/-- The loop of SQL `CONCAT_WS`: NULL arguments are skipped and the separator goes before
every kept argument but the first. -/
def concatWsGo (sep : String) : Bool → String → List (Option String) → String
  | _, acc, [] => acc
  | first, acc, none :: rest => concatWsGo sep first acc rest
  | true, acc, some s :: rest => concatWsGo sep false (acc ++ s) rest
  | false, acc, some s :: rest => concatWsGo sep false (acc ++ sep ++ s) rest

/-- SQL `CONCAT_WS(sep, ...)` with a separator that is not NULL. -/
def concatWs (sep : String) (args : List (Option String)) : String :=
  concatWsGo sep true "" args

/-- SQL `CASE WHEN flag = 1 THEN name ELSE NULL END`: a NULL flag makes the comparison
unknown, which takes the ELSE branch. -/
def caseWhenOne (flag : Option Int) (name : String) : Option String :=
  if flag = some 1 then some name else none

/-- The amenities expression of publish-final. -/
def amenities (s2 : Step2Row) : String :=
  concatWs ","
    [caseWhenOne s2.wifi "wifi", caseWhenOne s2.tv "tv",
     caseWhenOne s2.ac "ac", caseWhenOne s2.heating "heating",
     caseWhenOne s2.washer "washer", caseWhenOne s2.dryer "dryer",
     caseWhenOne s2.refrigerator "refrigerator", caseWhenOne s2.stove "stove",
     caseWhenOne s2.microwave "microwave", caseWhenOne s2.coffee_maker "coffee_maker",
     caseWhenOne s2.dishwasher "dishwasher", caseWhenOne s2.smoke_alarm "smoke_alarm",
     caseWhenOne s2.co_alarm "co_alarm", caseWhenOne s2.first_aid "first_aid",
     caseWhenOne s2.fire_extinguisher "fire_extinguisher"]

/-- The select list of publish-final for one joined row. -/
def snapshotOf (s1 : Step1Row) (s2 : Step2Row) (s3 : Step3Row) (u : UploadRow) : Snapshot :=
  { listing_id := s1.listing_id
    property_title := s1.property_title
    description := s1.description
    property_type := s1.property_type
    bedrooms := s1.bedrooms
    bathrooms := s1.bathrooms
    total_area := s1.total_area
    amenities := some (amenities s2)
    special_notes := s2.special_notes
    price := s3.price
    city := s3.city
    area := s3.area
    image1 := u.image1
    image2 := u.image2
    image3 := u.image3
    image4 := u.image4
    video := u.video }

/-- The rows of `step1 JOIN step2 JOIN step3 JOIN upload ... WHERE s1.listing_id = $1`. -/
def publishSelect (w : World) (key : String) : List Snapshot :=
  (w.step1.filter (fun s1 => s1.listing_id = key)).flatMap fun s1 =>
    (w.step2.filter (fun s2 => s1.listing_id = s2.listing_id)).flatMap fun s2 =>
      (w.step3.filter (fun s3 => s1.listing_id = s3.listing_id)).flatMap fun s3 =>
        (w.upload.filter (fun u => s1.listing_id = u.listing_id)).map fun u =>
          snapshotOf s1 s2 s3 u

/-- The `DO UPDATE SET` list of publish-final applied to a row in conflict: the 16 listed
columns are taken from the proposed row; `id`, `created_at` and `listing_id` are kept. -/
def overwriteRow (v : Snapshot) (r : Step4Row) : Step4Row :=
  { r with
    property_title := v.property_title, description := v.description
    property_type := v.property_type, bedrooms := v.bedrooms
    bathrooms := v.bathrooms, total_area := v.total_area
    amenities := v.amenities, special_notes := v.special_notes
    price := v.price, city := v.city, area := v.area
    image1 := v.image1, image2 := v.image2, image3 := v.image3, image4 := v.image4
    video := v.video }

/-- The effect of the conflict clause on one row of the table: a row with the listing
identifier of the proposed row is overwritten, any other row is left alone. -/
def conflictUpdate (v : Snapshot) (r : Step4Row) : Step4Row :=
  if r.listing_id = v.listing_id then overwriteRow v r else r

/-- Modelled from the spec: the defaults of the columns `id` and `created_at` of step4,
declared by the migration files, which are absent: a new row takes the next value of the
sequence as its internal monotonic row identifier and the time of the statement as its
creation timestamp. -/
def newStep4Row (seq now : Nat) (v : Snapshot) : Step4Row :=
  { v with id := seq, created_at := now }

/-- One row of `INSERT INTO step4 ... ON CONFLICT (listing_id) DO UPDATE SET ...`, on the
table and its sequence. The sequence value is drawn before the conflict is seen, so a
statement that ends in an update consumes one too. -/
def insertStep4 (now : Nat) (st : List Step4Row × Nat) (v : Snapshot) : List Step4Row × Nat :=
  if st.1.any (fun r => r.listing_id == v.listing_id) then
    (st.1.map (conflictUpdate v), st.2 + 1)
  else (st.1 ++ [newStep4Row st.2 now v], st.2 + 1)

/-- Handler of `POST /publish-final`; `now` is the clock of the database. -/
def publishFinal (now : Nat) (err : Option String) (body : PublishBody) (w : World) :
    Response × World :=
  if !body.listing_id.truthy then (missingId, w)
  else
    match err with
    | some e => (sendError e, { w with queries := w.queries + 1 })
    | none =>
      let st := (publishSelect w body.listing_id.toText).foldl (insertStep4 now)
        (w.step4, w.step4_seq)
      (success (.message "Listing Published Successfully!"),
        { w with queries := w.queries + 1, step4 := st.1, step4_seq := st.2 })

/-! ## Reads -/

/-- The rows of `SELECT * FROM step4 ORDER BY id DESC`. -/
def byIdDesc (t : List Step4Row) : List Step4Row :=
  t.insertionSort (fun a b => b.id ≤ a.id)

/-- Handler of `GET /get-all-listings`. -/
def getAllListings (err : Option String) (w : World) : Response × World :=
  match err with
  | some e => (sendError e, { w with queries := w.queries + 1 })
  | none => (success (.rows (byIdDesc w.step4)), { w with queries := w.queries + 1 })

/-- Handler of `GET /get-final-listing/:id`. -/
def getFinalListing (err : Option String) (listing_id : String) (w : World) :
    Response × World :=
  match err with
  | some e => (sendError e, { w with queries := w.queries + 1 })
  | none =>
    match (w.step4.filter (fun r => r.listing_id = listing_id)).head? with
    | none =>
      ({ code := 404, status := "error", detail := .message "Listing not found" },
        { w with queries := w.queries + 1 })
    | some r => (success (.row r), { w with queries := w.queries + 1 })

/-- One of the four nested lookups `SELECT * FROM t WHERE listing_id = $1` with its callback
`if (!e && r.rows.length > 0) output.x = r.rows[0]`. -/
def lookupRow {ρ : Type} (key : ρ → String) (err : Option String) (listing_id : String)
    (t : List ρ) : Option ρ :=
  match err with
  | some _ => none
  | none => (t.filter (fun r => key r = listing_id)).head?

/-- The four lookups of get-listing and get-latest-listing. -/
def readDraft (e1 e2 e3 e4 : Option String) (listing_id : String) (w : World) : Draft :=
  { step1 := lookupRow (·.listing_id) e1 listing_id w.step1
    step2 := lookupRow (·.listing_id) e2 listing_id w.step2
    step3 := lookupRow (·.listing_id) e3 listing_id w.step3
    media := lookupRow (·.listing_id) e4 listing_id w.upload }

/-- Handler of `GET /get-listing/:id`; the path parameter is a string. -/
def getListing (e1 e2 e3 e4 : Option String) (listing_id : String) (w : World) :
    Response × World :=
  if listing_id = "" then (missingId, w)
  else
    (success (.draft (readDraft e1 e2 e3 e4 listing_id w)), { w with queries := w.queries + 4 })

/-- Handler of `GET /get-latest-listing`. -/
def getLatestListing (err e1 e2 e3 e4 : Option String) (w : World) : Response × World :=
  match err with
  | some e => (sendError e, { w with queries := w.queries + 1 })
  | none =>
    match (w.step4.insertionSort (fun a b => b.created_at ≤ a.created_at)).head? with
    | none =>
      ({ code := 200, status := "error", detail := .message "No listings found" },
        { w with queries := w.queries + 1 })
    | some r =>
      (success (.latest r.listing_id (readDraft e1 e2 e3 e4 r.listing_id w)),
        { w with queries := w.queries + 5 })

/-! ## Search -/

/-- Whether some suffix of the string satisfies `f`: the part of a match after a `%`. -/
def anySuffix (f : List Char → Bool) : List Char → Bool
  | [] => f []
  | c :: s => f (c :: s) || anySuffix f s

/-- SQL `string LIKE pattern` on characters (pattern first): `%` stands for any run of
characters, `_` for one character, a backslash makes the next pattern character literal. A
pattern that ends in a lone backslash is an error in the engine and matches nothing here;
the patterns of search end in `%` and never do. -/
def likeChars : List Char → List Char → Bool
  | [], s => s.isEmpty
  | '%' :: p, s => anySuffix (likeChars p) s
  | '_' :: p, s =>
    match s with
    | [] => false
    | _ :: s => likeChars p s
  | '\\' :: c :: p, s =>
    match s with
    | [] => false
    | d :: s => c == d && likeChars p s
  | ['\\'], _ => false
  | c :: p, s =>
    match s with
    | [] => false
    | d :: s => c == d && likeChars p s

/-- SQL `col LIKE pattern` for a nullable column: NULL gives unknown. -/
def sqlLike (col : Option String) (pattern : String) : Option Bool :=
  col.map fun s => likeChars pattern.data s.data

/-- SQL three-valued OR. -/
def sqlOr : Option Bool → Option Bool → Option Bool
  | some true, _ => some true
  | _, some true => some true
  | some false, some false => some false
  | _, _ => none

/-- The WHERE clause of search, `city LIKE $1 OR area LIKE $2 OR price::text LIKE $3`, with
the same pattern for the three parameters. -/
def searchWhere (like : String) (r : Step4Row) : Option Bool :=
  sqlOr (sqlOr (sqlLike r.city like) (sqlLike r.area like))
    (sqlLike (r.price.map fun n => toString n) like)

/-- Handler of `GET /search`; `q` is the query parameter, none when it is absent. -/
def search (err : Option String) (q : Option String) (w : World) : Response × World :=
  let q := match q with
    | none => ""
    | some s => if s = "" then "" else s
  let like := "%" ++ q ++ "%"
  match err with
  | some e => (sendError e, { w with queries := w.queries + 1 })
  | none =>
    (success (.rows (byIdDesc (w.step4.filter fun r => searchWhere like r = some true))),
      { w with queries := w.queries + 1 })

/-! ## The API as a transition system -/

/-- A request to the API together with what its handler reads from outside the state. -/
inductive Op where
  | saveStep1 (err : Option String) (body : Step1Body)
  | addStep2 (err : Option String) (body : Step2Body)
  | addStep3 (err : Option String) (body : Step3Body)
  | uploadMedia (env : MediaEnv) (err : Option String) (req : MediaReq)
  | createListing (dflt : ColumnDefaults) (now k : Nat) (e1 e2 e3 e4 : Option String)
  | publishFinal (now : Nat) (err : Option String) (body : PublishBody)
  | getAllListings (err : Option String)
  | getFinalListing (err : Option String) (listing_id : String)
  | getListing (e1 e2 e3 e4 : Option String) (listing_id : String)
  | getLatestListing (err e1 e2 e3 e4 : Option String)
  | search (err : Option String) (q : Option String)
  | root

/-- The handler that serves a request. -/
def step : Op → World → Response × World
  | .saveStep1 err body, w => saveStep1 err body w
  | .addStep2 err body, w => addStep2 err body w
  | .addStep3 err body, w => addStep3 err body w
  | .uploadMedia env err req, w => uploadMedia env err req w
  | .createListing dflt now k e1 e2 e3 e4, w => createListing dflt now k e1 e2 e3 e4 w
  | .publishFinal now err body, w => publishFinal now err body w
  | .getAllListings err, w => getAllListings err w
  | .getFinalListing err listing_id, w => getFinalListing err listing_id w
  | .getListing e1 e2 e3 e4 listing_id, w => getListing e1 e2 e3 e4 listing_id w
  | .getLatestListing err e1 e2 e3 e4, w => getLatestListing err e1 e2 e3 e4 w
  | .search err q, w => search err q w
  | .root, w =>
    ({ code := 200, status := "", detail := .text "🚀 API is LIVE — Railway backend running successfully" }, w)

/-- Whether a request is publish-final for the listing identifier `key`. -/
def Op.publishes (key : String) : Op → Prop
  | .publishFinal _ _ body => body.listing_id.toText = key
  | _ => False

/-! ## Vocabulary of the statements -/

/-- The canonical order of the spec: the 15 amenity names wifi, tv, ac, heating, washer,
dryer, refrigerator, stove, microwave, coffee_maker, dishwasher, smoke_alarm, co_alarm,
first_aid, fire_extinguisher, each with the flag of the row. -/
def flagsInOrder (s2 : Step2Row) : List (String × Option Int) :=
  [("wifi", s2.wifi), ("tv", s2.tv), ("ac", s2.ac), ("heating", s2.heating),
   ("washer", s2.washer), ("dryer", s2.dryer), ("refrigerator", s2.refrigerator),
   ("stove", s2.stove), ("microwave", s2.microwave), ("coffee_maker", s2.coffee_maker),
   ("dishwasher", s2.dishwasher), ("smoke_alarm", s2.smoke_alarm), ("co_alarm", s2.co_alarm),
   ("first_aid", s2.first_aid), ("fire_extinguisher", s2.fire_extinguisher)]

/-- The names of the flags that are 1, in the canonical order. -/
def namesOfSetFlags (s2 : Step2Row) : List String :=
  ((flagsInOrder s2).filter (fun p => p.2 = some 1)).map (·.1)

/-- A string that is not empty and neither starts nor ends with a comma. -/
def CommaFree (s : String) : Prop :=
  s.data ≠ [] ∧ s.data.head? ≠ some ',' ∧ s.data.getLast? ≠ some ','

/-- The stored value that the spec documents for a field of a step payload, written
without the helpers of the handlers: a value that is given is stored as given, an explicit
null is NULL, and an omitted field takes the documented default `dflt` of its column
(`some 0` for an amenity flag, `some ""` for a text of step2, NULL for a field of step1 or
step3). -/
def documentedValue {α : Type} (dflt : Option α) : Field α → Option α
  | .val a => some a
  | .null => none
  | .absent => dflt

/-- The blob store reports an error for a slot that is present in the request. -/
def SlotFails (env : MediaEnv) (req : MediaReq) : Prop :=
  ∃ e, some (Except.error e) ∈ uploadAll env req

/-- A table has a row for the listing identifier. -/
def hasKey {ρ : Type} (key : ρ → String) (k : String) (t : List ρ) : Prop :=
  ∃ r ∈ t, key r = k

/-- Modelled from the spec: the column defaults of the absent migration files, taken as
NULL for every column, so that create-listing seeds the empty rows the spec describes. -/
def nullDefaults : ColumnDefaults :=
  { step1 := ⟨"", none, none, none, none, none, none⟩
    step2 := ⟨"", none, none, none, none, none, none, none, none, none, none, none, none,
      none, none, none, none, none⟩
    step3 := ⟨"", none, none, none⟩
    upload := ⟨"", none, none, none, none, none⟩ }

/-- The database after create-listing at time 1000 with random value 0 and then
publish-final of the identifier it returned. -/
def createdAndPublished : World :=
  (publishFinal 1001 none ⟨.str "1000_0"⟩
    (createListing nullDefaults 1000 0 none none none none World.empty).2).2

/-- A blob store that stores every object under the name it is given. -/
def storeAll : MediaEnv :=
  { clock := fun _ => 5, extname := fun _ => ".png", put := fun p => .ok p
    settles := [1, 2, 3, 4] }

/-- The database after the four step saves of listing "a", each with no field but the
identifier, and then publish-final. -/
def savedAndPublished : World :=
  (publishFinal 7 none ⟨.str "a"⟩
    (uploadMedia storeAll none ⟨.str "a", none, none, none, none⟩
      (addStep3 none ⟨.str "a", .absent, .absent, .absent⟩
        (addStep2 none ⟨.str "a", .absent, .absent, .absent, .absent, .absent, .absent,
            .absent, .absent, .absent, .absent, .absent, .absent, .absent, .absent, .absent,
            .absent, .absent⟩
          (saveStep1 none ⟨.str "a", .absent, .absent, .absent, .absent, .absent, .absent⟩
            World.empty).2).2).2).2).2

/-- A blob store that refuses the object of slot 2 and stores every other object. -/
def refuseSecond : MediaEnv :=
  { clock := fun _ => 6, extname := fun _ => ".jpg"
    put := fun p => if p = "a/image2-6.jpg" then .error "quota exceeded" else .ok p
    settles := [2, 1] }

/-- The database after the step saves of listing "a" and a media save that stored two
images. -/
def withMedia : World :=
  (uploadMedia storeAll none ⟨.str "a", some ⟨"front.png"⟩, some ⟨"back.png"⟩, none, none⟩
    savedAndPublished).2

/-- No row leaves a table: the listing identifiers of each of the five tables before a
request are, in their order, among those after it. -/
def NoRowRemoved (w w2 : World) : Prop :=
  (w.step1.map (·.listing_id)).Sublist (w2.step1.map (·.listing_id))
    ∧ (w.step2.map (·.listing_id)).Sublist (w2.step2.map (·.listing_id))
    ∧ (w.step3.map (·.listing_id)).Sublist (w2.step3.map (·.listing_id))
    ∧ (w.upload.map (·.listing_id)).Sublist (w2.upload.map (·.listing_id))
    ∧ (w.step4.map (·.listing_id)).Sublist (w2.step4.map (·.listing_id))

/-- A blob store that refuses the object of slot 4 and stores every other object. -/
def refuseFourth : MediaEnv :=
  { clock := fun _ => 6, extname := fun _ => ".jpg"
    put := fun p => if p = "a/image4-6.jpg" then .error "too large" else .ok p
    settles := [4, 3, 2, 1] }

/-! ## Lemmas on CONCAT_WS -/

theorem concatWsGo_false (sep : String) (args : List (Option String)) (acc : String) :
    concatWsGo sep false acc args = String.intercalate.go acc sep (args.filterMap id) := by
  induction args generalizing acc with
  | nil => simp [concatWsGo, String.intercalate.go]
  | cons a rest ih =>
    cases a with
    | none => simpa [concatWsGo] using ih acc
    | some s => simpa [concatWsGo, String.intercalate.go] using ih (acc ++ sep ++ s)

theorem concatWs_eq_intercalate (sep : String) (args : List (Option String)) :
    concatWs sep args = sep.intercalate (args.filterMap id) := by
  unfold concatWs
  induction args with
  | nil => simp [concatWsGo, String.intercalate]
  | cons a rest ih =>
    cases a with
    | none => simpa [concatWsGo] using ih
    | some s => simp [concatWsGo, String.intercalate, concatWsGo_false]

theorem filterMap_caseWhenOne (l : List (String × Option Int)) :
    (l.map (fun p => caseWhenOne p.2 p.1)).filterMap id
      = (l.filter (fun p => p.2 = some 1)).map (·.1) := by
  induction l with
  | nil => rfl
  | cons p rest ih =>
    by_cases h : p.2 = some 1 <;> simp_all [caseWhenOne]

theorem amenities_eq (s2 : Step2Row) :
    amenities s2 = ",".intercalate (namesOfSetFlags s2) := by
  have h : amenities s2
      = concatWs "," ((flagsInOrder s2).map (fun p => caseWhenOne p.2 p.1)) := rfl
  rw [h, concatWs_eq_intercalate, filterMap_caseWhenOne]
  rfl

theorem intercalate_go_data (sep : String) (l : List String) (acc : String) :
    (String.intercalate.go acc sep l).data
      = acc.data ++ l.flatMap (fun s => sep.data ++ s.data) := by
  induction l generalizing acc with
  | nil => simp [String.intercalate.go]
  | cons a rest ih => simp [String.intercalate.go, ih, String.data_append]

theorem intercalate_no_edge_comma (l : List String) (hl : ∀ s ∈ l, CommaFree s) :
    (",".intercalate l).data.head? ≠ some ','
      ∧ (",".intercalate l).data.getLast? ≠ some ',' := by
  cases l with
  | nil => simp [String.intercalate]
  | cons a rest =>
    obtain ⟨ha0, ha1, ha2⟩ := hl a (List.mem_cons_self _ _)
    simp only [String.intercalate, intercalate_go_data]
    constructor
    · cases hd : a.data with
      | nil => exact absurd hd ha0
      | cons c cs => rw [hd] at ha1; simpa using ha1
    · induction rest using List.reverseRecOn with
      | nil => simpa using ha2
      | append_singleton xs x _ =>
        obtain ⟨hx0, _, hx2⟩ := hl x (by simp)
        simp only [List.flatMap_append, List.flatMap_cons, List.flatMap_nil, List.append_nil,
          ← List.append_assoc]
        rw [List.getLast?_append_of_ne_nil _ hx0]
        exact hx2

theorem namesOfSetFlags_commaFree (s2 : Step2Row) : ∀ s ∈ namesOfSetFlags s2, CommaFree s := by
  intro s hs
  simp only [namesOfSetFlags, List.mem_map, List.mem_filter] at hs
  obtain ⟨p, ⟨hp, _⟩, rfl⟩ := hs
  simp only [flagsInOrder, List.mem_cons, List.mem_singleton, List.not_mem_nil, or_false] at hp
  rcases hp with h | h | h | h | h | h | h | h | h | h | h | h | h | h | h <;>
    (subst h; unfold CommaFree; dsimp only; decide)

/-- C1: the amenities value that publish-final selects for a step2 row is never NULL and is
the comma-joined list of the names of exactly the flags equal to 1, in the canonical order;
it neither starts nor ends with a comma, and it is the empty string when no flag is 1. -/
theorem publish_amenities (s1 : Step1Row) (s2 : Step2Row) (s3 : Step3Row) (u : UploadRow) :
    (snapshotOf s1 s2 s3 u).amenities = some (",".intercalate (namesOfSetFlags s2))
      ∧ (amenities s2).data.head? ≠ some ','
      ∧ (amenities s2).data.getLast? ≠ some ','
      ∧ ((∀ p ∈ flagsInOrder s2, p.2 ≠ some 1) →
          (snapshotOf s1 s2 s3 u).amenities = some "") := by
  have heq := amenities_eq s2
  have hedge := intercalate_no_edge_comma _ (namesOfSetFlags_commaFree s2)
  refine ⟨congrArg some heq, ?_, ?_, ?_⟩
  · rw [heq]; exact hedge.1
  · rw [heq]; exact hedge.2
  · intro hnone
    have hnil : namesOfSetFlags s2 = [] := by
      simp only [namesOfSetFlags, List.map_eq_nil_iff, List.filter_eq_nil_iff]
      intro p hp
      simpa using hnone p hp
    show some (amenities s2) = some ""
    rw [heq, hnil]
    rfl

/-- C1 at the row of the spec: wifi, ac and dryer are 1, every other flag is 0, and the
published amenities are "wifi,ac,dryer"; with every flag 0 or NULL they are "". -/
theorem publish_amenities_witness :
    (snapshotOf ⟨"a", none, none, none, none, none, none⟩
        ⟨"a", some 1, some 0, some 1, some 0, some 0, some 1, some 0, some 0, some 0, some 0,
          some 0, some 0, some 0, some 0, some 0, some "", some ""⟩
        ⟨"a", none, none, none⟩ ⟨"a", none, none, none, none, none⟩).amenities
      = some "wifi,ac,dryer"
    ∧ (snapshotOf ⟨"a", none, none, none, none, none, none⟩
        ⟨"a", some 0, none, some 2, some 0, some 0, some (-1), some 0, some 0, some 0, some 0,
          some 0, some 0, some 0, some 0, none, some "", some ""⟩
        ⟨"a", none, none, none⟩ ⟨"a", none, none, none, none, none⟩).amenities
      = some "" :=
  ⟨(publish_amenities _ _ _ _).1.trans (by decide),
   (publish_amenities _ _ _ _).2.2.2 (by decide)⟩

/-! ## Listing identifiers -/

theorem excessBits_le (j fuel n : Nat) (h : n < 2 ^ (53 + j)) : excessBits fuel n ≤ j := by
  induction fuel generalizing n j with
  | zero => simp [excessBits]
  | succ fuel ih =>
    unfold excessBits
    split
    · exact Nat.zero_le _
    next hbig =>
      cases j with
      | zero => exact absurd h hbig
      | succ j =>
        have hhalf : n / 2 < 2 ^ (53 + j) := by
          rw [Nat.div_lt_iff_lt_mul (by decide)]
          calc n < 2 ^ (53 + (j + 1)) := h
            _ = 2 ^ (53 + j) * 2 := by rw [← Nat.add_assoc, Nat.pow_succ]
        exact Nat.succ_le_succ (ih j (n / 2) hhalf)

theorem nearestDouble_lt (k : Nat) (h : k < RANDOM_DENOM) :
    nearestDouble (k * 10000) < 10000 * RANDOM_DENOM := by
  unfold RANDOM_DENOM at *
  have hn : k * 10000 < 2 ^ (53 + 14) := by omega
  have hs := excessBits_le 14 (k * 10000) (k * 10000) hn
  unfold nearestDouble
  generalize excessBits (k * 10000) (k * 10000) = s at hs
  simp only []
  interval_cases s <;> simp only [Nat.reducePow] <;> split <;> omega

theorem floorRandom_le (k : Nat) (h : k < RANDOM_DENOM) : floorRandom k 10000 ≤ 9999 := by
  have hlt := nearestDouble_lt k h
  unfold floorRandom RANDOM_DENOM at *
  omega

theorem roundRandom_le (k : Nat) (h : k < RANDOM_DENOM) : roundRandom k 10000 ≤ 10000 := by
  have hlt := nearestDouble_lt k h
  unfold roundRandom RANDOM_DENOM at *
  omega

/-- The product is rounded as a double before `Math.round` and `Math.floor` see it: for
k = 953412041114334 the exact product lies just below 1058.5 and the double is 1058.5,
rounded to 1059; for k = 1234887017824990 the exact product lies just below 1371 and the
double is 1371. -/
theorem random_product_is_a_double :
    roundRandom 953412041114334 10000 = 1059
      ∧ (2 * (953412041114334 * 10000) + 2 ^ 53) / 2 ^ 54 = 1058
      ∧ floorRandom 1234887017824990 10000 = 1371
      ∧ 1234887017824990 * 10000 / 2 ^ 53 = 1370 := by
  refine ⟨by decide, by decide, by decide, by decide⟩

/-- C9: for the random value (2^53 - 2^38) / 2^53 = 1 - 2^-15, which lies in [0, 1),
create-listing rounds 9999.69... up and mints an identifier whose random part is 10000,
outside 0..9999; makeListingId takes the floor and gives 9999 for the same value. -/
theorem createListingId_suffix_10000 :
    2 ^ 53 - 2 ^ 38 < RANDOM_DENOM
      ∧ roundRandom (2 ^ 53 - 2 ^ 38) 10000 = 10000
      ∧ createListingId 1700000000000 (2 ^ 53 - 2 ^ 38) = "1700000000000_10000"
      ∧ makeListingId 1700000000000 (2 ^ 53 - 2 ^ 38) = "1700000000000_9999" := by
  refine ⟨by decide, by decide, by decide, by decide⟩

/-! ## Search -/

theorem anySuffix_of_nil (f : List Char → Bool) (h : f [] = true) (s : List Char) :
    anySuffix f s = true := by
  induction s with
  | nil => simpa [anySuffix] using h
  | cons c s ih => simp [anySuffix, ih]

theorem likeChars_any (s : List Char) : likeChars ['%', '%'] s = true := by
  have h0 : likeChars [] [] = true := by simp [likeChars]
  have h1 : anySuffix (likeChars []) [] = true := anySuffix_of_nil _ h0 []
  simp only [likeChars]
  exact anySuffix_of_nil _ h1 s

theorem searchWhere_any (r : Step4Row) :
    searchWhere "%%" r = some true ↔ (r.city ≠ none ∨ r.area ≠ none ∨ r.price ≠ none) := by
  have hd : ("%%" : String).data = ['%', '%'] := rfl
  unfold searchWhere sqlLike
  rw [hd]
  cases r.city <;> cases r.area <;> cases r.price <;> simp [sqlOr, likeChars_any]

/-- What search does with the query absent or empty: it returns, newest row first, the
published rows in which city, area and price are not all NULL. -/
theorem search_empty_query (q : Option String) (hq : q = none ∨ q = some "") (w : World) :
    (search none q w).1
      = success (.rows (byIdDesc
          (w.step4.filter fun r => r.city ≠ none ∨ r.area ≠ none ∨ r.price ≠ none))) := by
  have hlike : ("%" ++ "" ++ "%" : String) = "%%" := by decide
  have hf : (w.step4.filter fun r => searchWhere "%%" r = some true)
      = w.step4.filter fun r => r.city ≠ none ∨ r.area ≠ none ∨ r.price ≠ none := by
    apply List.filter_congr
    intro r _
    simp only [searchWhere_any]
  rcases hq with rfl | rfl <;> simp only [search, if_true, hlike, hf]

/-- C8: after the four step saves of a listing with no field but the identifier and
publish-final (and likewise after create-listing with NULL column defaults and
publish-final), the published table holds one row, whose city, area and price are NULL;
get-all-listings returns it, search with the query absent or empty returns no row. -/
theorem search_empty_query_misses_null_row :
    (savedAndPublished.step4.map fun r => (r.listing_id, r.city, r.area, r.price))
        = [("a", none, none, none)]
      ∧ (getAllListings none savedAndPublished).1 = success (.rows savedAndPublished.step4)
      ∧ (search none none savedAndPublished).1 = success (.rows [])
      ∧ (search none (some "") savedAndPublished).1 = success (.rows [])
      ∧ (createdAndPublished.step4.map fun r => (r.listing_id, r.city, r.area, r.price))
        = [("1000_0", none, none, none)]
      ∧ (search none none createdAndPublished).1 = success (.rows [])
      ∧ (search none (some "") createdAndPublished).1 = success (.rows []) := by
  refine ⟨by decide, by decide, by decide, by decide, by decide, by decide, by decide⟩

/-! ## Requests without a listing identifier -/

/-- C6: save-step1, add-step2, add-step3, upload-media and publish-final answer a request
whose listing_id is falsy with HTTP 400 and status "error", and return the state as it
was: no table, no blob, and no query was issued. -/
theorem missing_listing_id_rejected (lid : JsVal) (h : lid.truthy = false) :
    missingId.code = 400 ∧ missingId.status = "error"
      ∧ (∀ err body w, body.listing_id = lid → saveStep1 err body w = (missingId, w))
      ∧ (∀ err body w, body.listing_id = lid → addStep2 err body w = (missingId, w))
      ∧ (∀ err body w, body.listing_id = lid → addStep3 err body w = (missingId, w))
      ∧ (∀ env err req w, req.listing_id = lid → uploadMedia env err req w = (missingId, w))
      ∧ (∀ now err body w, body.listing_id = lid →
          publishFinal now err body w = (missingId, w)) := by
  refine ⟨rfl, rfl, ?_, ?_, ?_, ?_, ?_⟩
  · intro err body w hb; simp [saveStep1, hb, h]
  · intro err body w hb; simp [addStep2, hb, h]
  · intro err body w hb; simp [addStep3, hb, h]
  · intro env err req w hb; simp [uploadMedia, hb, h]
  · intro now err body w hb; simp [publishFinal, hb, h]

/-- C6 at the empty string, at 0 and at an absent listing_id, on a database that holds a
published listing. -/
theorem missing_listing_id_rejected_witness :
    publishFinal 9 none ⟨.str ""⟩ savedAndPublished = (missingId, savedAndPublished)
      ∧ addStep3 none ⟨.num 0 (by decide), .val 5, .absent, .absent⟩ savedAndPublished
        = (missingId, savedAndPublished)
      ∧ uploadMedia storeAll none ⟨.undefined, some ⟨"x.png"⟩, none, none, none⟩
          savedAndPublished = (missingId, savedAndPublished) :=
  ⟨(missing_listing_id_rejected (.str "") (by decide)).2.2.2.2.2.2 9 none _ _ rfl,
   (missing_listing_id_rejected (.num 0 (by decide)) (by decide)).2.2.2.2.1 none _ _ rfl,
   (missing_listing_id_rejected .undefined (by decide)).2.2.2.2.2.1 storeAll none _ _ rfl⟩

/-! ## Upserts -/

theorem upsertRow_keys {ρ : Type} (key : ρ → String) (a : ρ) (t : List ρ) :
    (upsertRow key a t).map key
      = if t.any (fun r => key r == key a) then t.map key else t.map key ++ [key a] := by
  unfold upsertRow
  split
  · rw [List.map_map]
    apply List.map_congr_left
    intro r _
    by_cases h : key r = key a <;> simp [h]
  · simp

theorem filter_key_eq_nil {ρ : Type} (key : ρ → String) (k : String) (t : List ρ)
    (h : ∀ r ∈ t, key r ≠ k) : t.filter (fun r => key r = k) = [] := by
  rw [List.filter_eq_nil_iff]
  intro r hr
  simpa using h r hr

theorem map_replace_of_no_key {ρ : Type} (key : ρ → String) (k : String) (a : ρ) (t : List ρ)
    (h : ∀ r ∈ t, key r ≠ k) : t.map (fun r => if key r = k then a else r) = t := by
  conv_rhs => rw [← List.map_id t]
  apply List.map_congr_left
  intro r hr
  simp [h r hr]

theorem upsertRow_head {ρ : Type} (key : ρ → String) (a : ρ) (t : List ρ) (k : String)
    (hk : key a = k) :
    ((upsertRow key a t).filter (fun r => key r = k)).head? = some a := by
  subst hk
  unfold upsertRow
  split
  next hany =>
    induction t with
    | nil => simp at hany
    | cons x xs ih =>
      by_cases hx : key x = key a
      · simp [hx]
      · have hxs : xs.any (fun r => key r == key a) = true := by
          simpa [hx] using hany
        simpa [hx] using ih hxs
  next hany =>
    have hno : ∀ r ∈ t, key r ≠ key a := by
      intro r hr h
      exact hany (List.any_eq_true.mpr ⟨r, hr, by simpa using h⟩)
    simp [List.filter_append, filter_key_eq_nil key (key a) t hno]

theorem upsertRow_filter {ρ : Type} (key : ρ → String) (a : ρ) (t : List ρ) (k : String)
    (hk : key a = k) (hnd : (t.map key).Nodup) :
    (upsertRow key a t).filter (fun r => key r = k) = [a] := by
  subst hk
  unfold upsertRow
  split
  next hany =>
    induction t with
    | nil => simp at hany
    | cons x xs ih =>
      rw [List.map_cons, List.nodup_cons] at hnd
      by_cases hx : key x = key a
      · have hno : ∀ r ∈ xs, key r ≠ key a := by
          intro r hr h
          exact hnd.1 (by rw [hx, ← h]; exact List.mem_map_of_mem key hr)
        simp [hx, map_replace_of_no_key key (key a) a xs hno,
          filter_key_eq_nil key (key a) xs hno]
      · have hxs : xs.any (fun r => key r == key a) = true := by
          simpa [hx] using hany
        simpa [hx] using ih hnd.2 hxs
  next hany =>
    have hno : ∀ r ∈ t, key r ≠ key a := by
      intro r hr h
      exact hany (List.any_eq_true.mpr ⟨r, hr, by simpa using h⟩)
    simp [List.filter_append, filter_key_eq_nil key (key a) t hno]

theorem upsertRow_nodup {ρ : Type} (key : ρ → String) (a : ρ) (t : List ρ)
    (hnd : (t.map key).Nodup) : ((upsertRow key a t).map key).Nodup := by
  rw [upsertRow_keys]
  split
  · exact hnd
  next hany =>
    have hno : key a ∉ t.map key := by
      intro hmem
      obtain ⟨r, hr, h⟩ := List.mem_map.mp hmem
      exact hany (List.any_eq_true.mpr ⟨r, hr, by simpa using h⟩)
    exact List.Nodup.append hnd (List.nodup_singleton _) (by simpa using hno)

/-- C4: on a database whose draft tables have one row per listing identifier at most,
saving a step twice for the same non-empty identifier (save-step1, add-step2 or add-step3,
both saves accepted by the storage) leaves exactly one row for the identifier, and every
column of that row is decided by the second payload alone: a value given there is stored as
given, an explicit null is NULL, an omitted step1 or step3 field is NULL, an omitted flag is
0, an omitted text of step2 is the empty string. -/
theorem step_save_full_replace (id : String) (hid : id ≠ "") (w : World)
    (hw : w.UniqueKeys) :
    (∀ p1 p2 : Step1Body, p1.listing_id = .str id → p2.listing_id = .str id →
      (saveStep1 none p2 (saveStep1 none p1 w).2).2.step1.filter (fun r => r.listing_id = id)
        = [{ listing_id := id
             property_title := documentedValue none p2.property_title
             description := documentedValue none p2.description
             property_type := documentedValue none p2.property_type
             bedrooms := documentedValue none p2.bedrooms
             bathrooms := documentedValue none p2.bathrooms
             total_area := documentedValue none p2.total_area }])
    ∧ (∀ p1 p2 : Step2Body, p1.listing_id = .str id → p2.listing_id = .str id →
      (addStep2 none p2 (addStep2 none p1 w).2).2.step2.filter (fun r => r.listing_id = id)
        = [{ listing_id := id
             wifi := documentedValue (some 0) p2.wifi
             tv := documentedValue (some 0) p2.tv
             ac := documentedValue (some 0) p2.ac
             heating := documentedValue (some 0) p2.heating
             washer := documentedValue (some 0) p2.washer
             dryer := documentedValue (some 0) p2.dryer
             refrigerator := documentedValue (some 0) p2.refrigerator
             stove := documentedValue (some 0) p2.stove
             microwave := documentedValue (some 0) p2.microwave
             coffee_maker := documentedValue (some 0) p2.coffee_maker
             dishwasher := documentedValue (some 0) p2.dishwasher
             smoke_alarm := documentedValue (some 0) p2.smoke_alarm
             co_alarm := documentedValue (some 0) p2.co_alarm
             first_aid := documentedValue (some 0) p2.first_aid
             fire_extinguisher := documentedValue (some 0) p2.fire_extinguisher
             unique_features := documentedValue (some "") p2.unique_features
             special_notes := documentedValue (some "") p2.special_notes }])
    ∧ (∀ p1 p2 : Step3Body, p1.listing_id = .str id → p2.listing_id = .str id →
      (addStep3 none p2 (addStep3 none p1 w).2).2.step3.filter (fun r => r.listing_id = id)
        = [{ listing_id := id
             price := documentedValue none p2.price
             city := documentedValue none p2.city
             area := documentedValue none p2.area }]) := by
  have ht : (JsVal.str id).truthy = true := by simp [JsVal.truthy, hid]
  have documentedValue_some : ∀ {α : Type} (d : α) (f : Field α),
      documentedValue (some d) f = f.orDefault d := by
    intro α d f; cases f <;> rfl
  have documentedValue_none : ∀ {α : Type} (f : Field α),
      documentedValue none f = f.bind := by
    intro α f; cases f <;> rfl
  obtain ⟨h1, h2, h3, _⟩ := hw
  refine ⟨?_, ?_, ?_⟩
  · intro p1 p2 e1 e2
    simp only [saveStep1, e1, e2, ht, Bool.not_true, Bool.false_eq_true, if_false,
      JsVal.toText, documentedValue_none]
    exact upsertRow_filter (fun r : Step1Row => r.listing_id) _ _ id rfl
      (upsertRow_nodup _ _ _ h1)
  · intro p1 p2 e1 e2
    simp only [addStep2, e1, e2, ht, Bool.not_true, Bool.false_eq_true, if_false,
      JsVal.toText, documentedValue_some]
    exact upsertRow_filter (fun r : Step2Row => r.listing_id) _ _ id rfl
      (upsertRow_nodup _ _ _ h2)
  · intro p1 p2 e1 e2
    simp only [addStep3, e1, e2, ht, Bool.not_true, Bool.false_eq_true, if_false,
      JsVal.toText, documentedValue_none]
    exact upsertRow_filter (fun r : Step3Row => r.listing_id) _ _ id rfl
      (upsertRow_nodup _ _ _ h3)

/-- C4 on a database that already holds a row of each step for listing "a". add-step2 with
wifi 1 and unique_features "pool", then add-step2 with tv 1, ac null and special_notes
"quiet": one row, wifi 0, tv 1, ac NULL, unique_features "", special_notes "quiet".
save-step1 with title "Old" and 3 bedrooms, then with title "New" and 2 bathrooms: one
row, title "New", bedrooms NULL, bathrooms 2. add-step3 with price 900 and city "Austin",
then with price 1200 and area "Hyde Park": one row, price 1200, city NULL, area
"Hyde Park". -/
theorem step_save_full_replace_witness :
    (addStep2 none
        ⟨.str "a", .absent, .val 1, .null, .absent, .absent, .absent, .absent, .absent,
          .absent, .absent, .absent, .absent, .absent, .absent, .absent, .absent,
          .val "quiet"⟩
        (addStep2 none
          ⟨.str "a", .val 1, .absent, .absent, .absent, .absent, .absent, .absent, .absent,
            .absent, .absent, .absent, .absent, .absent, .absent, .absent, .val "pool",
            .absent⟩
          savedAndPublished).2).2.step2.filter (fun r => r.listing_id = "a")
      = [⟨"a", some 0, some 1, none, some 0, some 0, some 0, some 0, some 0, some 0, some 0,
          some 0, some 0, some 0, some 0, some 0, some "", some "quiet"⟩]
    ∧ (saveStep1 none ⟨.str "a", .val "New", .absent, .absent, .absent, .val 2, .absent⟩
        (saveStep1 none ⟨.str "a", .val "Old", .absent, .absent, .val 3, .absent, .absent⟩
          savedAndPublished).2).2.step1.filter (fun r => r.listing_id = "a")
      = [⟨"a", some "New", none, none, none, some 2, none⟩]
    ∧ (addStep3 none ⟨.str "a", .val 1200, .absent, .val "Hyde Park"⟩
        (addStep3 none ⟨.str "a", .val 900, .val "Austin", .absent⟩
          savedAndPublished).2).2.step3.filter (fun r => r.listing_id = "a")
      = [⟨"a", some 1200, none, some "Hyde Park"⟩] :=
  ⟨((step_save_full_replace "a" (by decide) savedAndPublished
      (by unfold World.UniqueKeys; decide)).2.1 _ _ rfl rfl).trans (by decide),
   ((step_save_full_replace "a" (by decide) savedAndPublished
      (by unfold World.UniqueKeys; decide)).1 _ _ rfl rfl).trans (by decide),
   ((step_save_full_replace "a" (by decide) savedAndPublished
      (by unfold World.UniqueKeys; decide)).2.2 _ _ rfl rfl).trans (by decide)⟩

/-- C5: after a step save for a non-empty listing identifier that the storage accepted,
get-listing for that identifier (its lookup of the step succeeding) answers with status
success and holds, under the key of the step, a row in which every field that was given
has the value given, an explicit null is NULL, an omitted step1 or step3 field is NULL, an
omitted flag is 0 and an omitted text of step2 is the empty string. -/
theorem save_then_get_listing (id : String) (hid : id ≠ "") (w : World) :
    (∀ (p : Step1Body) (e2 e3 e4 : Option String), p.listing_id = .str id →
      ∃ d, (getListing none e2 e3 e4 id (saveStep1 none p w).2).1 = success (.draft d)
        ∧ d.step1 = some
          { listing_id := id
            property_title := documentedValue none p.property_title
            description := documentedValue none p.description
            property_type := documentedValue none p.property_type
            bedrooms := documentedValue none p.bedrooms
            bathrooms := documentedValue none p.bathrooms
            total_area := documentedValue none p.total_area })
    ∧ (∀ (p : Step2Body) (e1 e3 e4 : Option String), p.listing_id = .str id →
      ∃ d, (getListing e1 none e3 e4 id (addStep2 none p w).2).1 = success (.draft d)
        ∧ d.step2 = some
          { listing_id := id
            wifi := documentedValue (some 0) p.wifi
            tv := documentedValue (some 0) p.tv
            ac := documentedValue (some 0) p.ac
            heating := documentedValue (some 0) p.heating
            washer := documentedValue (some 0) p.washer
            dryer := documentedValue (some 0) p.dryer
            refrigerator := documentedValue (some 0) p.refrigerator
            stove := documentedValue (some 0) p.stove
            microwave := documentedValue (some 0) p.microwave
            coffee_maker := documentedValue (some 0) p.coffee_maker
            dishwasher := documentedValue (some 0) p.dishwasher
            smoke_alarm := documentedValue (some 0) p.smoke_alarm
            co_alarm := documentedValue (some 0) p.co_alarm
            first_aid := documentedValue (some 0) p.first_aid
            fire_extinguisher := documentedValue (some 0) p.fire_extinguisher
            unique_features := documentedValue (some "") p.unique_features
            special_notes := documentedValue (some "") p.special_notes })
    ∧ (∀ (p : Step3Body) (e1 e2 e4 : Option String), p.listing_id = .str id →
      ∃ d, (getListing e1 e2 none e4 id (addStep3 none p w).2).1 = success (.draft d)
        ∧ d.step3 = some
          { listing_id := id
            price := documentedValue none p.price
            city := documentedValue none p.city
            area := documentedValue none p.area }) := by
  have ht : (JsVal.str id).truthy = true := by simp [JsVal.truthy, hid]
  have documentedValue_some : ∀ {α : Type} (d : α) (f : Field α),
      documentedValue (some d) f = f.orDefault d := by
    intro α d f; cases f <;> rfl
  have documentedValue_none : ∀ {α : Type} (f : Field α),
      documentedValue none f = f.bind := by
    intro α f; cases f <;> rfl
  refine ⟨?_, ?_, ?_⟩
  · intro p e2 e3 e4 hp
    refine ⟨_, by simp only [getListing, hid, if_false]; rfl, ?_⟩
    simp only [readDraft, lookupRow, saveStep1, hp, ht, Bool.not_true, Bool.false_eq_true,
      if_false, JsVal.toText, documentedValue_none]
    exact upsertRow_head (fun r : Step1Row => r.listing_id) _ _ id rfl
  · intro p e1 e3 e4 hp
    refine ⟨_, by simp only [getListing, hid, if_false]; rfl, ?_⟩
    simp only [readDraft, lookupRow, addStep2, hp, ht, Bool.not_true, Bool.false_eq_true,
      if_false, JsVal.toText, documentedValue_some]
    exact upsertRow_head (fun r : Step2Row => r.listing_id) _ _ id rfl
  · intro p e1 e2 e4 hp
    refine ⟨_, by simp only [getListing, hid, if_false]; rfl, ?_⟩
    simp only [readDraft, lookupRow, addStep3, hp, ht, Bool.not_true, Bool.false_eq_true,
      if_false, JsVal.toText, documentedValue_none]
    exact upsertRow_head (fun r : Step3Row => r.listing_id) _ _ id rfl

/-- C5 on a database that holds the listing "a". add-step2 with wifi 1, dryer 1, ac null
and special_notes "quiet", then get-listing: step2 has wifi 1, dryer 1, ac NULL, every
omitted flag 0, unique_features "" and special_notes "quiet". save-step1 with title "Loft"
and 2 bedrooms: step1 has them and NULL elsewhere. add-step3 with price 1200 and city
"Austin": step3 has price 1200, city "Austin" and a NULL area. -/
theorem save_then_get_listing_witness :
    (∃ d, (getListing none none none none "a"
        (addStep2 none
          ⟨.str "a", .val 1, .absent, .null, .absent, .absent, .val 1, .absent, .absent,
            .absent, .absent, .absent, .absent, .absent, .absent, .absent, .absent,
            .val "quiet"⟩ savedAndPublished).2).1 = success (.draft d)
      ∧ d.step2 = some ⟨"a", some 1, some 0, none, some 0, some 0, some 1, some 0, some 0,
          some 0, some 0, some 0, some 0, some 0, some 0, some 0, some "", some "quiet"⟩)
    ∧ (∃ d, (getListing none none none none "a"
        (saveStep1 none ⟨.str "a", .val "Loft", .absent, .absent, .val 2, .absent, .absent⟩
          savedAndPublished).2).1 = success (.draft d)
      ∧ d.step1 = some ⟨"a", some "Loft", none, none, some 2, none, none⟩)
    ∧ (∃ d, (getListing none none none none "a"
        (addStep3 none ⟨.str "a", .val 1200, .val "Austin", .absent⟩ savedAndPublished).2).1
          = success (.draft d)
      ∧ d.step3 = some ⟨"a", some 1200, some "Austin", none⟩) :=
  ⟨((save_then_get_listing "a" (by decide) savedAndPublished).2.1 _ none none none rfl).imp
      fun _ h => ⟨h.1, h.2.trans (by decide)⟩,
   ((save_then_get_listing "a" (by decide) savedAndPublished).1 _ none none none rfl).imp
      fun _ h => ⟨h.1, h.2.trans (by decide)⟩,
   ((save_then_get_listing "a" (by decide) savedAndPublished).2.2 _ none none none rfl).imp
      fun _ h => ⟨h.1, h.2.trans (by decide)⟩⟩

/-! ## Publish -/

theorem publishSelect_eq_nil (w : World) (k : String)
    (h : ¬ hasKey (·.listing_id) k w.step1 ∨ ¬ hasKey (·.listing_id) k w.step2
      ∨ ¬ hasKey (·.listing_id) k w.step3 ∨ ¬ hasKey (·.listing_id) k w.upload) :
    publishSelect w k = [] := by
  simp only [hasKey, not_exists, not_and] at h
  simp only [publishSelect, List.flatMap_eq_nil_iff, List.map_eq_nil_iff, List.mem_filter,
    decide_eq_true_eq, and_imp]
  intro s1 hs1 hk1
  rcases h with h | h | h | h
  · exact absurd hk1 (h s1 hs1)
  · intro s2 hs2 hk2
    exact absurd (hk2.symm.trans hk1) (h s2 hs2)
  · intro s2 _ _ s3 hs3 hk3
    exact absurd (hk3.symm.trans hk1) (h s3 hs3)
  · intro s2 _ _ s3 _ _
    rw [List.filter_eq_nil_iff]
    intro u hu
    simp only [decide_eq_true_eq]
    intro hku
    exact absurd (hku.symm.trans hk1) (h u hu)

/-- C3: publish-final for a non-empty listing identifier that has no row in step1, in
step2, in step3 or in upload leaves the published table as it was, and (the statement
itself not failing) answers 200 with status success. -/
theorem publish_without_draft_row (now : Nat) (id : String) (hid : id ≠ "") (w : World)
    (hmiss : ¬ hasKey (·.listing_id) id w.step1 ∨ ¬ hasKey (·.listing_id) id w.step2
      ∨ ¬ hasKey (·.listing_id) id w.step3 ∨ ¬ hasKey (·.listing_id) id w.upload) :
    (publishFinal now none ⟨.str id⟩ w).1
        = { code := 200, status := "success",
            detail := .message "Listing Published Successfully!" }
      ∧ (publishFinal now none ⟨.str id⟩ w).2.step4 = w.step4
      ∧ (¬ hasKey (·.listing_id) id w.step4 →
          ¬ hasKey (·.listing_id) id (publishFinal now none ⟨.str id⟩ w).2.step4) := by
  have ht : (JsVal.str id).truthy = true := by simp [JsVal.truthy, hid]
  have hsel := publishSelect_eq_nil w id hmiss
  have h4 : (publishFinal now none ⟨.str id⟩ w).2.step4 = w.step4 := by
    simp only [publishFinal, ht, Bool.not_true, Bool.false_eq_true, if_false, JsVal.toText,
      hsel, List.foldl_nil]
  refine ⟨?_, h4, ?_⟩
  · simp only [publishFinal, ht, Bool.not_true, Bool.false_eq_true, if_false, success]
  · rw [h4]; exact fun h => h

/-- C3 on a database where listing "b" has rows in step1, step2 and upload and none in
step3: publish-final answers success and the published table still holds only "a". -/
theorem publish_without_draft_row_witness :
    (publishFinal 9 none ⟨.str "b"⟩
        (uploadMedia storeAll none ⟨.str "b", none, none, none, none⟩
          (addStep2 none ⟨.str "b", .val 1, .absent, .absent, .absent, .absent, .absent,
              .absent, .absent, .absent, .absent, .absent, .absent, .absent, .absent, .absent,
              .absent, .absent⟩
            (saveStep1 none ⟨.str "b", .val "Flat", .absent, .absent, .absent, .absent,
              .absent⟩ savedAndPublished).2).2).2).2.step4
      = savedAndPublished.step4 :=
  ((publish_without_draft_row 9 "b" (by decide) _
    (Or.inr (Or.inr (Or.inl (by unfold hasKey; decide))))).2.1).trans (by decide)

/-! ## Media upload -/

theorem firstRejection_eq_none (rs : List (Option (Except String String)))
    (h : ∀ e, some (Except.error e) ∉ rs) : firstRejection rs = none := by
  induction rs with
  | nil => rfl
  | cons r rest ih =>
    have hrest : ∀ e, some (Except.error e) ∉ rest :=
      fun e hmem => h e (List.mem_cons_of_mem _ hmem)
    match r with
    | none => simpa [firstRejection] using ih hrest
    | some (.ok p) => simpa [firstRejection] using ih hrest
    | some (.error e) => exact absurd (List.mem_cons_self _ _) (h e)

theorem firstRejection_of_mem (rs : List (Option (Except String String))) (e : String)
    (h : some (Except.error e) ∈ rs) : ∃ m, firstRejection rs = some m := by
  induction rs with
  | nil => simp at h
  | cons r rest ih =>
    match r with
    | some (.error e1) => exact ⟨_, rfl⟩
    | none =>
      have hrest : some (Except.error e) ∈ rest := by simpa using h
      simpa [firstRejection] using ih hrest
    | some (.ok p) =>
      have hrest : some (Except.error e) ∈ rest := by simpa using h
      simpa [firstRejection] using ih hrest

theorem settleOrder_subset (env : MediaEnv) (rs : List (Option (Except String String)))
    (r : Option (Except String String)) (h : r ∈ settleOrder env rs) : r ∈ rs := by
  unfold settleOrder at h
  rcases List.mem_append.mp h with h | h
  · obtain ⟨i, _, hi⟩ := List.mem_filterMap.mp h
    split at hi
    · exact absurd hi (by simp)
    · exact List.getElem?_mem hi
  · exact h

/-- C7: for an upload-media request with a listing identifier, when the blob store reports
an error for a slot present in the request the answer is 500 with status "error", no query
is issued and the upload table is as it was; so a change of the upload table implies that
no present slot failed. When no present slot fails and the statement runs, the answer is
success and the row of the listing holds the stored paths. -/
theorem upload_media_all_or_nothing (env : MediaEnv) (err : Option String) (req : MediaReq)
    (w : World) (hid : req.listing_id.truthy = true) :
    (SlotFails env req →
        (uploadMedia env err req w).1.code = 500
          ∧ (uploadMedia env err req w).1.status = "error"
          ∧ (uploadMedia env err req w).2.upload = w.upload
          ∧ (uploadMedia env err req w).2.queries = w.queries)
      ∧ ((uploadMedia env err req w).2.upload ≠ w.upload → ¬ SlotFails env req)
      ∧ (¬ SlotFails env req →
        (uploadMedia env none req w).1 = success (.message "Media saved successfully!")
          ∧ (uploadMedia env none req w).2.upload
            = upsertRow (·.listing_id)
                { listing_id := req.listing_id.toText
                  image1 := storedPath (uploadSlot env req.listing_id 1 req.image1)
                  image2 := storedPath (uploadSlot env req.listing_id 2 req.image2)
                  image3 := storedPath (uploadSlot env req.listing_id 3 req.image3)
                  image4 := storedPath (uploadSlot env req.listing_id 4 req.image4)
                  video := none } w.upload) := by
  have hfail : SlotFails env req →
      (uploadMedia env err req w).1.code = 500
        ∧ (uploadMedia env err req w).1.status = "error"
        ∧ (uploadMedia env err req w).2.upload = w.upload
        ∧ (uploadMedia env err req w).2.queries = w.queries := by
    rintro ⟨e, he⟩
    obtain ⟨m, hm⟩ := firstRejection_of_mem (settleOrder env (uploadAll env req)) e
      (List.mem_append_right _ he)
    simp [uploadMedia, hid, hm, sendError]
  refine ⟨hfail, fun hne hsf => hne (hfail hsf).2.2.1, ?_⟩
  intro hok
  have hnone : firstRejection (settleOrder env (uploadAll env req)) = none :=
    firstRejection_eq_none _ (fun e hmem => hok ⟨e, settleOrder_subset env _ _ hmem⟩)
  simp [uploadMedia, hid, hnone]

/-- C7 on a database whose upload row for "a" holds two stored images: a second media save
whose slot 2 the blob store refuses answers 500 and leaves that row as it was. -/
theorem upload_media_all_or_nothing_witness :
    (uploadMedia refuseSecond none
        ⟨.str "a", some ⟨"new1.jpg"⟩, some ⟨"new2.jpg"⟩, none, none⟩ withMedia).1.code = 500
      ∧ (uploadMedia refuseSecond none
        ⟨.str "a", some ⟨"new1.jpg"⟩, some ⟨"new2.jpg"⟩, none, none⟩ withMedia).2.upload
        = [⟨"a", some "a/image1-5.png", some "a/image2-5.png", none, none, none⟩] :=
  have h := (upload_media_all_or_nothing refuseSecond none
    ⟨.str "a", some ⟨"new1.jpg"⟩, some ⟨"new2.jpg"⟩, none, none⟩ withMedia (by decide)).1
    ⟨"quota exceeded", List.Mem.tail _ (List.Mem.head _)⟩
  ⟨h.1, h.2.2.1.trans (by decide)⟩

/-! ## Publish twice -/

theorem conflictUpdate_listing_id (v : Snapshot) (r : Step4Row) :
    (conflictUpdate v r).listing_id = r.listing_id := by
  unfold conflictUpdate
  split <;> rfl

theorem conflictUpdate_twice (v v2 : Snapshot) (h : v2.listing_id = v.listing_id)
    (r : Step4Row) : conflictUpdate v2 (conflictUpdate v r) = conflictUpdate v2 r := by
  by_cases hr : r.listing_id = v.listing_id
  · have hr2 : r.listing_id = v2.listing_id := hr.trans h.symm
    have h1 : conflictUpdate v r = overwriteRow v r := if_pos hr
    have h2 : conflictUpdate v2 r = overwriteRow v2 r := if_pos hr2
    have h3 : conflictUpdate v2 (overwriteRow v r) = overwriteRow v2 (overwriteRow v r) :=
      if_pos (show (overwriteRow v r).listing_id = v2.listing_id from hr2)
    rw [h1, h2, h3]
    rfl
  · have h1 : conflictUpdate v r = r := if_neg hr
    rw [h1]

theorem any_map_conflictUpdate (v : Snapshot) (k : String) (t : List Step4Row) :
    (t.map (conflictUpdate v)).any (fun r => r.listing_id == k)
      = t.any (fun r => r.listing_id == k) := by
  induction t with
  | nil => rfl
  | cons x xs ih => simp [conflictUpdate_listing_id, ih]

theorem insertStep4_settled (now : Nat) (st : List Step4Row × Nat) (v : Snapshot) :
    (insertStep4 now st v).1.map (conflictUpdate v) = (insertStep4 now st v).1
      ∧ (insertStep4 now st v).1.any (fun r => r.listing_id == v.listing_id) = true := by
  unfold insertStep4
  split
  next hany =>
    refine ⟨?_, ?_⟩
    · simp only [List.map_map]
      apply List.map_congr_left
      intro r _
      exact conflictUpdate_twice v v rfl r
    · rw [any_map_conflictUpdate]; exact hany
  next hany =>
    have hno : ∀ r ∈ st.1, r.listing_id ≠ v.listing_id := by
      intro r hr h
      exact hany (List.any_eq_true.mpr ⟨r, hr, by simpa using h⟩)
    refine ⟨?_, by simp [newStep4Row]⟩
    have hold : st.1.map (conflictUpdate v) = st.1 := by
      conv_rhs => rw [← List.map_id st.1]
      apply List.map_congr_left
      intro r hr
      simp [conflictUpdate, hno r hr]
    simp [hold, conflictUpdate, overwriteRow, newStep4Row]

theorem foldl_insertStep4_conflict (now : Nat) (k : String) (v : Snapshot)
    (hv : v.listing_id = k) (l : List Snapshot) (hl : ∀ u ∈ l, u.listing_id = k)
    (t : List Step4Row) (n : Nat) (hany : t.any (fun r => r.listing_id == k) = true) :
    ((l ++ [v]).foldl (insertStep4 now) (t, n)).1 = t.map (conflictUpdate v) := by
  induction l generalizing t n with
  | nil => simp [insertStep4, hv, hany]
  | cons u rest ih =>
    have hu : u.listing_id = k := hl u (List.mem_cons_self _ _)
    have hrest : ∀ x ∈ rest, x.listing_id = k :=
      fun x hx => hl x (List.mem_cons_of_mem _ hx)
    have hstep : insertStep4 now (t, n) u = (t.map (conflictUpdate u), n + 1) := by
      simp [insertStep4, hu, hany]
    rw [List.cons_append, List.foldl_cons, hstep,
      ih hrest (t.map (conflictUpdate u)) (n + 1) (by rw [any_map_conflictUpdate]; exact hany),
      List.map_map]
    apply List.map_congr_left
    intro r _
    exact conflictUpdate_twice u v (hv.trans hu.symm) r

theorem publishSelect_key (w : World) (k : String) :
    ∀ v ∈ publishSelect w k, v.listing_id = k := by
  intro v hv
  simp only [publishSelect, List.mem_flatMap, List.mem_map, List.mem_filter,
    decide_eq_true_eq] at hv
  obtain ⟨s1, ⟨_, h1⟩, s2, _, s3, _, u, _, rfl⟩ := hv
  exact h1

theorem foldl_insertStep4_twice (now1 now2 : Nat) (k : String) (l : List Snapshot)
    (hl : ∀ u ∈ l, u.listing_id = k) (t : List Step4Row) (n m : Nat) :
    (l.foldl (insertStep4 now2) ((l.foldl (insertStep4 now1) (t, n)).1, m)).1
      = (l.foldl (insertStep4 now1) (t, n)).1 := by
  rcases List.eq_nil_or_concat l with rfl | ⟨l0, v, rfl⟩
  · rfl
  · rw [List.concat_eq_append] at hl ⊢
    have hv : v.listing_id = k := hl v (by simp)
    have hl0 : ∀ u ∈ l0, u.listing_id = k := fun u hu => hl u (by simp [hu])
    have hset := insertStep4_settled now1 (l0.foldl (insertStep4 now1) (t, n)) v
    rw [hv] at hset
    have hfold : (l0 ++ [v]).foldl (insertStep4 now1) (t, n)
        = insertStep4 now1 (l0.foldl (insertStep4 now1) (t, n)) v := by
      rw [List.foldl_append, List.foldl_cons, List.foldl_nil]
    rw [hfold, foldl_insertStep4_conflict now2 k v hv l0 hl0 _ m hset.2]
    exact hset.1

/-- C2: after a publish-final that the storage accepted, a second publish-final of the same
request, at any later time and whatever the storage answers, leaves the published table as
the first call left it: every row, its id and its creation time included, is the same. -/
theorem publish_twice (now1 now2 : Nat) (err2 : Option String) (body : PublishBody)
    (w : World) :
    (publishFinal now2 err2 body (publishFinal now1 none body w).2).2.step4
      = (publishFinal now1 none body w).2.step4 := by
  by_cases ht : body.listing_id.truthy = true
  · cases err2 with
    | some e => simp [publishFinal, ht]
    | none =>
      simp only [publishFinal, ht, Bool.not_true, Bool.false_eq_true, if_false]
      exact foldl_insertStep4_twice now1 now2 body.listing_id.toText _
        (publishSelect_key w _) w.step4 w.step4_seq _
  · simp [publishFinal, ht]

/-! ## The state machine of a listing -/

theorem hasKey_iff_mem_map {ρ : Type} (key : ρ → String) (k : String) (t : List ρ) :
    hasKey key k t ↔ k ∈ t.map key := by
  simp [hasKey, List.mem_map]

theorem upsertRow_sublist {ρ : Type} (key : ρ → String) (a : ρ) (t : List ρ) :
    (t.map key).Sublist ((upsertRow key a t).map key) := by
  rw [upsertRow_keys]
  split
  · exact List.Sublist.refl _
  · exact List.sublist_append_left _ _

theorem insertIgnore_sublist {ρ : Type} (key : ρ → String) (a : ρ) (t : List ρ) :
    (t.map key).Sublist ((insertIgnore key a t).map key) := by
  unfold insertIgnore
  split
  · exact List.Sublist.refl _
  · rw [List.map_append]
    exact List.sublist_append_left _ _

theorem insertStep4_keys (now : Nat) (st : List Step4Row × Nat) (v : Snapshot) :
    (st.1.map (·.listing_id)).Sublist ((insertStep4 now st v).1.map (·.listing_id))
      ∧ ∀ x ∈ (insertStep4 now st v).1.map (·.listing_id),
          x ∈ st.1.map (·.listing_id) ∨ x = v.listing_id := by
  unfold insertStep4
  split
  · have hmap : (st.1.map (conflictUpdate v)).map (·.listing_id)
        = st.1.map (·.listing_id) := by
      rw [List.map_map]
      apply List.map_congr_left
      intro r _
      exact conflictUpdate_listing_id v r
    simp only [hmap]
    exact ⟨List.Sublist.refl _, fun x hx => Or.inl hx⟩
  · simp only [List.map_append, List.map_cons, List.map_nil]
    refine ⟨List.sublist_append_left _ _, ?_⟩
    intro x hx
    rcases List.mem_append.mp hx with h | h
    · exact Or.inl h
    · exact Or.inr (by simpa using h)

theorem foldl_insertStep4_keys (now : Nat) (k : String) (l : List Snapshot)
    (hl : ∀ u ∈ l, u.listing_id = k) (st : List Step4Row × Nat) :
    (st.1.map (·.listing_id)).Sublist ((l.foldl (insertStep4 now) st).1.map (·.listing_id))
      ∧ ∀ x ∈ (l.foldl (insertStep4 now) st).1.map (·.listing_id),
          x ∈ st.1.map (·.listing_id) ∨ x = k := by
  induction l generalizing st with
  | nil => exact ⟨List.Sublist.refl _, fun x hx => Or.inl hx⟩
  | cons u rest ih =>
    have hu : u.listing_id = k := hl u (List.mem_cons_self _ _)
    have hrest : ∀ x ∈ rest, x.listing_id = k :=
      fun x hx => hl x (List.mem_cons_of_mem _ hx)
    obtain ⟨h1, h2⟩ := insertStep4_keys now st u
    obtain ⟨h3, h4⟩ := ih hrest (insertStep4 now st u)
    rw [List.foldl_cons]
    refine ⟨h1.trans h3, ?_⟩
    intro x hx
    rcases h4 x hx with h | h
    · rcases h2 x h with h | h
      · exact Or.inl h
      · exact Or.inr (h.trans hu)
    · exact Or.inr h

theorem saveStep1_keeps (err : Option String) (body : Step1Body) (w : World) :
    NoRowRemoved w (saveStep1 err body w).2 ∧ (saveStep1 err body w).2.step4 = w.step4 := by
  unfold saveStep1
  split
  · exact ⟨⟨.refl _, .refl _, .refl _, .refl _, .refl _⟩, rfl⟩
  · cases err with
    | some e => exact ⟨⟨.refl _, .refl _, .refl _, .refl _, .refl _⟩, rfl⟩
    | none => exact ⟨⟨upsertRow_sublist _ _ _, .refl _, .refl _, .refl _, .refl _⟩, rfl⟩

theorem addStep2_keeps (err : Option String) (body : Step2Body) (w : World) :
    NoRowRemoved w (addStep2 err body w).2 ∧ (addStep2 err body w).2.step4 = w.step4 := by
  unfold addStep2
  split
  · exact ⟨⟨.refl _, .refl _, .refl _, .refl _, .refl _⟩, rfl⟩
  · cases err with
    | some e => exact ⟨⟨.refl _, .refl _, .refl _, .refl _, .refl _⟩, rfl⟩
    | none => exact ⟨⟨.refl _, upsertRow_sublist _ _ _, .refl _, .refl _, .refl _⟩, rfl⟩

theorem addStep3_keeps (err : Option String) (body : Step3Body) (w : World) :
    NoRowRemoved w (addStep3 err body w).2 ∧ (addStep3 err body w).2.step4 = w.step4 := by
  unfold addStep3
  split
  · exact ⟨⟨.refl _, .refl _, .refl _, .refl _, .refl _⟩, rfl⟩
  · cases err with
    | some e => exact ⟨⟨.refl _, .refl _, .refl _, .refl _, .refl _⟩, rfl⟩
    | none => exact ⟨⟨.refl _, .refl _, upsertRow_sublist _ _ _, .refl _, .refl _⟩, rfl⟩

theorem uploadMedia_keeps (env : MediaEnv) (err : Option String) (req : MediaReq) (w : World) :
    NoRowRemoved w (uploadMedia env err req w).2
      ∧ (uploadMedia env err req w).2.step4 = w.step4 := by
  unfold uploadMedia
  split
  · exact ⟨⟨.refl _, .refl _, .refl _, .refl _, .refl _⟩, rfl⟩
  · simp only []
    split
    · exact ⟨⟨.refl _, .refl _, .refl _, .refl _, .refl _⟩, rfl⟩
    · cases err with
      | some e => exact ⟨⟨.refl _, .refl _, .refl _, .refl _, .refl _⟩, rfl⟩
      | none => exact ⟨⟨.refl _, .refl _, .refl _, upsertRow_sublist _ _ _, .refl _⟩, rfl⟩

theorem createListing_keeps (dflt : ColumnDefaults) (now k : Nat) (e1 e2 e3 e4 : Option String)
    (w : World) :
    NoRowRemoved w (createListing dflt now k e1 e2 e3 e4 w).2
      ∧ (createListing dflt now k e1 e2 e3 e4 w).2.step4 = w.step4 := by
  unfold createListing
  cases e1 <;> cases e2 <;> cases e3 <;> cases e4 <;>
    exact ⟨⟨by first | exact .refl _ | exact insertIgnore_sublist _ _ _,
      by first | exact .refl _ | exact insertIgnore_sublist _ _ _,
      by first | exact .refl _ | exact insertIgnore_sublist _ _ _,
      by first | exact .refl _ | exact insertIgnore_sublist _ _ _, .refl _⟩, rfl⟩

theorem publishFinal_keeps (now : Nat) (err : Option String) (body : PublishBody) (w : World) :
    NoRowRemoved w (publishFinal now err body w).2
      ∧ ∀ x ∈ (publishFinal now err body w).2.step4.map (·.listing_id),
          x ∈ w.step4.map (·.listing_id) ∨ x = body.listing_id.toText := by
  unfold publishFinal
  split
  · exact ⟨⟨.refl _, .refl _, .refl _, .refl _, .refl _⟩, fun x hx => Or.inl hx⟩
  · cases err with
    | some e => exact ⟨⟨.refl _, .refl _, .refl _, .refl _, .refl _⟩, fun x hx => Or.inl hx⟩
    | none =>
      obtain ⟨h1, h2⟩ := foldl_insertStep4_keys now body.listing_id.toText
        (publishSelect w body.listing_id.toText) (publishSelect_key w _) (w.step4, w.step4_seq)
      exact ⟨⟨.refl _, .refl _, .refl _, .refl _, h1⟩, h2⟩

theorem reads_keep (op : Op) (w : World)
    (hop : match op with
      | .getAllListings _ | .getFinalListing _ _ | .getListing _ _ _ _ _
      | .getLatestListing _ _ _ _ _ | .search _ _ | .root => True
      | _ => False) :
    NoRowRemoved w (step op w).2 ∧ (step op w).2.step4 = w.step4 := by
  have hrefl : ∀ w2 : World, w2.step1 = w.step1 → w2.step2 = w.step2 → w2.step3 = w.step3 →
      w2.upload = w.upload → w2.step4 = w.step4 → NoRowRemoved w w2 ∧ w2.step4 = w.step4 := by
    intro w2 h1 h2 h3 h4 h5
    unfold NoRowRemoved
    rw [h1, h2, h3, h4, h5]
    exact ⟨⟨.refl _, .refl _, .refl _, .refl _, .refl _⟩, rfl⟩
  cases op with
  | getAllListings err =>
    cases err <;> exact hrefl _ rfl rfl rfl rfl rfl
  | getFinalListing err listing_id =>
    simp only [step, getFinalListing]
    cases err with
    | some e => exact hrefl _ rfl rfl rfl rfl rfl
    | none => simp only []; split <;> exact hrefl _ rfl rfl rfl rfl rfl
  | getListing e1 e2 e3 e4 listing_id =>
    simp only [step, getListing]
    split <;> exact hrefl _ rfl rfl rfl rfl rfl
  | getLatestListing err e1 e2 e3 e4 =>
    simp only [step, getLatestListing]
    cases err with
    | some e => exact hrefl _ rfl rfl rfl rfl rfl
    | none => simp only []; split <;> exact hrefl _ rfl rfl rfl rfl rfl
  | search err q =>
    cases err <;> exact hrefl _ rfl rfl rfl rfl rfl
  | root => exact hrefl _ rfl rfl rfl rfl rfl
  | _ => exact absurd hop (by simp)

/-- C10: whatever the request and the state, no row leaves any of the five tables, a
listing that has a published row keeps one, a listing gains a published row only when the
request is publish-final for its identifier, and every request that is not publish-final
leaves the published table exactly as it was. -/
theorem published_only_by_publish (op : Op) (w : World) :
    NoRowRemoved w (step op w).2
      ∧ (∀ k, hasKey (·.listing_id) k w.step4 →
          hasKey (·.listing_id) k (step op w).2.step4)
      ∧ (∀ k, ¬ hasKey (·.listing_id) k w.step4 →
          hasKey (·.listing_id) k (step op w).2.step4 → op.publishes k)
      ∧ ((∀ k, ¬ op.publishes k) → (step op w).2.step4 = w.step4) := by
  have hkeep : ∀ w2 : World, NoRowRemoved w w2 →
      ∀ k, hasKey (·.listing_id) k w.step4 → hasKey (·.listing_id) k w2.step4 := by
    intro w2 h k hk
    rw [hasKey_iff_mem_map] at hk ⊢
    exact h.2.2.2.2.subset hk
  have hsame : ∀ w2 : World, w2.step4 = w.step4 →
      ∀ k, ¬ hasKey (·.listing_id) k w.step4 → hasKey (·.listing_id) k w2.step4 →
        op.publishes k := by
    intro w2 h k hk hk2
    rw [h] at hk2
    exact absurd hk2 hk
  have hrest : NoRowRemoved w (step op w).2 ∧ (step op w).2.step4 = w.step4 →
      NoRowRemoved w (step op w).2
      ∧ (∀ k, hasKey (·.listing_id) k w.step4 →
          hasKey (·.listing_id) k (step op w).2.step4)
      ∧ (∀ k, ¬ hasKey (·.listing_id) k w.step4 →
          hasKey (·.listing_id) k (step op w).2.step4 → op.publishes k)
      ∧ ((∀ k, ¬ op.publishes k) → (step op w).2.step4 = w.step4) :=
    fun h => ⟨h.1, hkeep _ h.1, hsame _ h.2, fun _ => h.2⟩
  cases op with
  | saveStep1 err body => exact hrest (saveStep1_keeps err body w)
  | addStep2 err body => exact hrest (addStep2_keeps err body w)
  | addStep3 err body => exact hrest (addStep3_keeps err body w)
  | uploadMedia env err req => exact hrest (uploadMedia_keeps env err req w)
  | createListing dflt now k e1 e2 e3 e4 =>
    exact hrest (createListing_keeps dflt now k e1 e2 e3 e4 w)
  | publishFinal now err body =>
    obtain ⟨h1, h2⟩ := publishFinal_keeps now err body w
    refine ⟨h1, hkeep _ h1, ?_, ?_⟩
    · intro k hk hk2
      rw [hasKey_iff_mem_map] at hk hk2
      rcases h2 k hk2 with h | h
      · exact absurd h hk
      · exact h.symm
    · intro hno
      exact absurd rfl (hno body.listing_id.toText)
  | getAllListings err => exact hrest (reads_keep _ w trivial)
  | getFinalListing err listing_id => exact hrest (reads_keep _ w trivial)
  | getListing e1 e2 e3 e4 listing_id => exact hrest (reads_keep _ w trivial)
  | getLatestListing err e1 e2 e3 e4 => exact hrest (reads_keep _ w trivial)
  | search err q => exact hrest (reads_keep _ w trivial)
  | root => exact hrest (reads_keep _ w trivial)

/-! ## The unique index is an invariant -/

theorem insertIgnore_nodup {ρ : Type} (key : ρ → String) (a : ρ) (t : List ρ)
    (hnd : (t.map key).Nodup) : ((insertIgnore key a t).map key).Nodup := by
  unfold insertIgnore
  split
  · exact hnd
  next hany =>
    have hno : key a ∉ t.map key := by
      intro hmem
      obtain ⟨r, hr, h⟩ := List.mem_map.mp hmem
      exact hany (List.any_eq_true.mpr ⟨r, hr, by simpa using h⟩)
    rw [List.map_append]
    exact List.Nodup.append hnd (List.nodup_singleton _) (by simpa using hno)

/-- Every request keeps the draft tables at one row per listing identifier at most, and the
empty database has the property: it holds in every state the API can reach. -/
theorem step_uniqueKeys (op : Op) (w : World) (hw : w.UniqueKeys) :
    (step op w).2.UniqueKeys ∧ World.empty.UniqueKeys := by
  refine ⟨?_, by unfold World.UniqueKeys; decide⟩
  obtain ⟨h1, h2, h3, h4⟩ := hw
  cases op with
  | saveStep1 err body =>
    simp only [step, saveStep1]
    split
    · exact ⟨h1, h2, h3, h4⟩
    · cases err with
      | some e => exact ⟨h1, h2, h3, h4⟩
      | none => exact ⟨upsertRow_nodup _ _ _ h1, h2, h3, h4⟩
  | addStep2 err body =>
    simp only [step, addStep2]
    split
    · exact ⟨h1, h2, h3, h4⟩
    · cases err with
      | some e => exact ⟨h1, h2, h3, h4⟩
      | none => exact ⟨h1, upsertRow_nodup _ _ _ h2, h3, h4⟩
  | addStep3 err body =>
    simp only [step, addStep3]
    split
    · exact ⟨h1, h2, h3, h4⟩
    · cases err with
      | some e => exact ⟨h1, h2, h3, h4⟩
      | none => exact ⟨h1, h2, upsertRow_nodup _ _ _ h3, h4⟩
  | uploadMedia env err req =>
    simp only [step, uploadMedia]
    split
    · exact ⟨h1, h2, h3, h4⟩
    · split
      · exact ⟨h1, h2, h3, h4⟩
      · cases err with
        | some e => exact ⟨h1, h2, h3, h4⟩
        | none => exact ⟨h1, h2, h3, upsertRow_nodup _ _ _ h4⟩
  | createListing dflt now k e1 e2 e3 e4 =>
    simp only [step, createListing]
    cases e1 <;> cases e2 <;> cases e3 <;> cases e4 <;>
      exact ⟨by first | exact h1 | exact insertIgnore_nodup _ _ _ h1,
        by first | exact h2 | exact insertIgnore_nodup _ _ _ h2,
        by first | exact h3 | exact insertIgnore_nodup _ _ _ h3,
        by first | exact h4 | exact insertIgnore_nodup _ _ _ h4⟩
  | publishFinal now err body =>
    simp only [step, publishFinal]
    split
    · exact ⟨h1, h2, h3, h4⟩
    · cases err <;> exact ⟨h1, h2, h3, h4⟩
  | getAllListings err =>
    simp only [step, getAllListings]
    cases err <;> exact ⟨h1, h2, h3, h4⟩
  | getFinalListing err listing_id =>
    simp only [step, getFinalListing]
    cases err with
    | some e => exact ⟨h1, h2, h3, h4⟩
    | none => simp only []; split <;> exact ⟨h1, h2, h3, h4⟩
  | getListing e1 e2 e3 e4 listing_id =>
    simp only [step, getListing]
    split <;> exact ⟨h1, h2, h3, h4⟩
  | getLatestListing err e1 e2 e3 e4 =>
    simp only [step, getLatestListing]
    cases err with
    | some e => exact ⟨h1, h2, h3, h4⟩
    | none => simp only []; split <;> exact ⟨h1, h2, h3, h4⟩
  | search err q =>
    simp only [step, search]
    cases err <;> exact ⟨h1, h2, h3, h4⟩
  | root => exact ⟨h1, h2, h3, h4⟩

/-! ## Further evaluations -/

/-- A publish after a change of a draft overwrites the published row and keeps its id and
creation time: after add-step3 with price 1200 and city "Austin" and a second publish-final,
the one published row of "a" has price 1200, city "Austin", id 1 and creation time 7. -/
theorem republish_overwrites :
    ((publishFinal 50 none ⟨.str "a"⟩
        (addStep3 none ⟨.str "a", .val 1200, .val "Austin", .absent⟩
          savedAndPublished).2).2.step4.map
      fun r => (r.listing_id, r.price, r.city, r.area, r.id, r.created_at))
      = [("a", some 1200, some "Austin", none, 1, 7)] := by
  decide

/-- The fourth slot is uploaded like the others: when the blob store refuses it, the answer
is 500 with the message of that upload and the upload table is as it was; when every slot
is stored, the row holds the four paths. -/
theorem upload_media_fourth_slot :
    (uploadMedia refuseFourth none
        ⟨.str "a", some ⟨"1.jpg"⟩, none, none, some ⟨"4.jpg"⟩⟩ withMedia).1
        = sendError "Supabase Storage Error: too large"
      ∧ (uploadMedia refuseFourth none
        ⟨.str "a", some ⟨"1.jpg"⟩, none, none, some ⟨"4.jpg"⟩⟩ withMedia).2.upload
        = withMedia.upload
      ∧ (uploadMedia storeAll none
        ⟨.str "a", some ⟨"1.jpg"⟩, some ⟨"2.jpg"⟩, some ⟨"3.jpg"⟩, some ⟨"4.jpg"⟩⟩
          withMedia).2.upload
        = [⟨"a", some "a/image1-5.png", some "a/image2-5.png", some "a/image3-5.png",
            some "a/image4-5.png", none⟩] := by
  refine ⟨by decide, by decide, by decide⟩

end DemoCheck
